import Mathlib

/-!
Shallow embedding of the ShareZidi v3 signaling-relay servers.

The repository contains several near-duplicate relay servers.  The claims
under verification cite four of them, all of which are embedded below:

* `MainPy`      — `sharezidi-v3/main.py` (ConnectionManager, FileTransferManager,
                  the websocket endpoint loop and its message handlers);
* `UltimateMain`— `sharezidi-v3/ultimate_main.py` (ConnectionManager.disconnect and
                  the WebRTC answer / ICE-candidate handlers);
* `WebRTCMgr`   — `sharezidi-v3-python/webrtc_manager.py` (WebRTCManager and
                  P2PTransferManager);
* `AdvServer`   — `sharezidi-v3-python/advanced_server.py` (the handlers that wrap
                  `webrtc_manager`).

Python dicts are embedded as association lists with string keys (dict keys are
unique, insertion preserves position, `del` removes the key's single binding).
JSON scalar payloads are embedded as `Val`; opaque payloads (SDP blobs, chunk
data) as `Val.vBlob`.  Wall-clock fields (`created_at`, `started_at`,
`timestamp` strings produced by `datetime.now()`) carry no information used by
any handler and are omitted from the records.  Python floats are embedded as
exact rationals; the only float arithmetic the embedded handlers perform is
`((chunk_index + 1) / total_chunks) * 100`, and division by zero / by `None`
is made explicit as a Python exception (`PyErr`).
-/

/-- File descriptor dict sent by clients (`file_info`); the relay reads only
`total_chunks` (via `.get("total_chunks", 0)`) and passes the rest through. -/
structure FileInfo where
  name : Option String
  size : Option Int
  total_chunks : Option Int
  deriving DecidableEq

/-- JSON-ish scalar values appearing in relay messages.  `vBlob` stands for an
opaque payload (chunk data, SDP offer/answer, ICE candidate dict) that the
relay never inspects; distinct numbers are distinct payloads. -/
inductive Val where
  | vStr : String → Val
  | vNum : Rat → Val
  | vBool : Bool → Val
  | vNull : Val
  | vBlob : Nat → Val
  | vFile : FileInfo → Val
  deriving DecidableEq

/-- Python truthiness of the embedded values (`""`, `0`, `False`, `None` are
falsy; a non-empty opaque payload dict is truthy). -/
def Val.truthy : Val → Bool
  | .vStr s => s ≠ ""
  | .vNum q => q ≠ 0
  | .vBool b => b
  | .vNull => false
  | .vBlob _ => true
  | .vFile _ => true

/-- Truthiness of an optional value (`message.get(k)` returns `None` when the
key is absent). -/
def otruthy : Option Val → Bool
  | none => false
  | some v => v.truthy

/-- Truthiness of an optional string field. -/
def struthy : Option String → Bool
  | none => false
  | some s => s ≠ ""

/-- One outbound websocket message: recipient client id together with the field
list of the JSON object passed to `json.dumps`. -/
abbrev Out := String × List (String × Val)

/-- Dict lookup on an association list (first binding wins; dict keys are
unique so this is the binding). -/
def lookupA {α : Type} : List (String × α) → String → Option α
  | [], _ => none
  | (k', v) :: rest, k => if k' = k then some v else lookupA rest k

/-- Dict assignment `m[k] = v`: replaces the binding in place, or appends a new
binding (Python dicts preserve insertion order). -/
def setA {α : Type} : List (String × α) → String → α → List (String × α)
  | [], k, v => [(k, v)]
  | (k', v') :: rest, k, v =>
      if k' = k then (k, v) :: rest else (k', v') :: setA rest k v

/-- Dict deletion `del m[k]`: removes the key's binding (keys are unique, so
removing every binding of `k` is the same operation). -/
def eraseA {α : Type} (m : List (String × α)) (k : String) : List (String × α) :=
  m.filter (fun e => e.1 ≠ k)

namespace MainPy

/-- A record of `FileTransferManager.transfers` in `sharezidi-v3/main.py`
(`create_transfer`); the `created_at` wall-clock string is omitted. -/
structure Transfer where
  id : String
  file_info : FileInfo
  sender_id : String
  receiver_id : String
  status : String
  progress : Rat
  chunks_received : Int
  total_chunks : Int
  deriving DecidableEq

/-- The global mutable state of `main.py`: `ConnectionManager.active_connections`
(only the key set matters — the values are the live sockets) and
`FileTransferManager.transfers`. -/
structure ServerState where
  active_connections : List String
  transfers : List (String × Transfer)
  deriving DecidableEq

/-- An inbound websocket message after `json.loads`, restricted to the fields
the `main.py` handlers read.  `none` stands for an absent key
(`message.get(k)` then yields Python `None`). -/
structure InMsg where
  type : String
  timestamp : Option Val
  file_info : Option FileInfo
  receiver_id : Option String
  transfer_id : Option String
  chunk_data : Option Val
  chunk_index : Option Int
  total_chunks : Option Int
  received_progress : Option Val
  deriving DecidableEq

/-- Exceptions the chunk handler can raise: `ZeroDivisionError` when
`total_chunks == 0`, `TypeError` when `total_chunks is None`. -/
inductive PyErr where
  | zeroDivision
  | typeErr
  deriving DecidableEq

/-- `ConnectionManager.send_to_client`: sends only when the id is registered,
silently does nothing otherwise. -/
def send_to_client (st : ServerState) (cid : String) (m : List (String × Val)) :
    List Out :=
  if st.active_connections.contains cid then [(cid, m)] else []

/-- `ConnectionManager.disconnect`: removes the client's connection entry (if
present) and nothing else — `FileTransferManager.transfers` is untouched. -/
def disconnect (st : ServerState) (cid : String) : ServerState :=
  { st with active_connections := st.active_connections.filter (fun x => x ≠ cid) }

/-- The `WebSocketDisconnect` branch of `websocket_endpoint`: it only calls
`manager.disconnect(client_id)` and logs; no message is sent to anyone. -/
def disconnectEvent (st : ServerState) (cid : String) : ServerState × List Out :=
  (disconnect st cid, [])

/-- `FileTransferManager.create_transfer`. -/
def create_transfer (st : ServerState) (tid : String) (fi : FileInfo)
    (sender_id receiver_id : String) : ServerState :=
  { st with
      transfers := setA st.transfers tid
        { id := tid, file_info := fi, sender_id := sender_id,
          receiver_id := receiver_id, status := "pending", progress := 0,
          chunks_received := 0, total_chunks := fi.total_chunks.getD 0 } }

/-- `FileTransferManager.update_progress`. -/
def update_progress (st : ServerState) (tid : String) (p : Rat) : ServerState :=
  match lookupA st.transfers tid with
  | some t => { st with transfers := setA st.transfers tid { t with progress := p } }
  | none => st

/-- `FileTransferManager.complete_transfer`. -/
def complete_transfer (st : ServerState) (tid : String) : ServerState :=
  match lookupA st.transfers tid with
  | some t =>
      { st with
          transfers := setA st.transfers tid { t with status := "completed", progress := 100 } }
  | none => st

/-- `handle_file_transfer_start`; `tid` is the freshly drawn `uuid.uuid4()`. -/
def handle_file_transfer_start (st : ServerState) (cid : String) (msg : InMsg)
    (tid : String) : ServerState × List Out :=
  let fi := msg.file_info.getD ⟨none, none, none⟩
  if !struthy msg.receiver_id then
    (st, [(cid, [("type", Val.vStr "error"),
                 ("message", Val.vStr "Receiver ID required")])])
  else
    let r := msg.receiver_id.getD ""
    let st' := create_transfer st tid fi cid r
    (st',
      send_to_client st' r
        [("type", Val.vStr "incoming_transfer"), ("transfer_id", Val.vStr tid),
         ("file_info", Val.vFile fi), ("sender_id", Val.vStr cid)] ++
      [(cid, [("type", Val.vStr "transfer_started"), ("transfer_id", Val.vStr tid),
              ("status", Val.vStr "pending")])])

/-- Fields of the `progress_update` reply sent back to the chunk's sender. -/
def progressUpdateMsg (tid : String) (p : Rat) (ci : Int) : List (String × Val) :=
  [("type", Val.vStr "progress_update"), ("transfer_id", Val.vStr tid),
   ("progress", Val.vNum p), ("chunk_index", Val.vNum ci)]

/-- Fields of the chunk message forwarded to the receiver. -/
def chunkFwdMsg (tid : String) (cd : Val) (ci tc : Int) : List (String × Val) :=
  [("type", Val.vStr "file_chunk"), ("transfer_id", Val.vStr tid),
   ("chunk_data", cd), ("chunk_index", Val.vNum ci),
   ("total_chunks", Val.vNum tc)]

/-- `handle_file_chunk`.  After the truthiness validation (which does NOT cover
`total_chunks`), the progress computation `((chunk_index + 1) / total_chunks)
* 100` raises `ZeroDivisionError` when `total_chunks == 0` and `TypeError`
when the field is absent (`None`); the raise happens before any state
mutation or send.  On the error path the exception propagates to the caller
carrying the untouched state. -/
def handle_file_chunk (st : ServerState) (cid : String) (msg : InMsg) :
    Except (PyErr × ServerState × List Out) (ServerState × List Out) :=
  if !(struthy msg.transfer_id && otruthy msg.chunk_data && msg.chunk_index.isSome) then
    .ok (st, [(cid, [("type", Val.vStr "error"),
                     ("message", Val.vStr "Missing required chunk data")])])
  else
    match msg.transfer_id, msg.chunk_index with
    | some tid, some ci =>
        match msg.total_chunks with
        | none => .error (.typeErr, st, [])
        | some tc =>
            if tc = 0 then .error (.zeroDivision, st, [])
            else
              let p : Rat := (((ci : Rat) + 1) / (tc : Rat)) * 100
              let st' := update_progress st tid p
              let out1 : List Out := [(cid, progressUpdateMsg tid p ci)]
              match lookupA st'.transfers tid with
              | some t =>
                  .ok (st', out1 ++
                    send_to_client st' t.receiver_id
                      (chunkFwdMsg tid (msg.chunk_data.getD Val.vNull) ci tc))
              | none => .ok (st', out1)
    | _, _ => .ok (st, [])

/-- `handle_chunk_ack`: in `main.py` this only forwards the ack to the
transfer's sender; no counter and no status field is touched. -/
def handle_chunk_ack (st : ServerState) (cid : String) (msg : InMsg) :
    ServerState × List Out :=
  match msg.transfer_id with
  | none => (st, [])
  | some tid =>
      match lookupA st.transfers tid with
      | some t =>
          (st, send_to_client st t.sender_id
            [("type", Val.vStr "chunk_ack"), ("transfer_id", Val.vStr tid),
             ("chunk_index", (msg.chunk_index.map (Val.vNum ∘ Int.cast)).getD Val.vNull),
             ("received_progress", msg.received_progress.getD (Val.vNum 0))])
      | none => (st, [])

/-- `handle_transfer_complete`: marks the transfer completed (from whatever
state it was in) and notifies the sender only. -/
def handle_transfer_complete (st : ServerState) (cid : String) (msg : InMsg) :
    ServerState × List Out :=
  match msg.transfer_id with
  | none => (st, [])
  | some tid =>
      match lookupA st.transfers tid with
      | some _ =>
          let st' := complete_transfer st tid
          match lookupA st'.transfers tid with
          | some t =>
              (st', send_to_client st' t.sender_id
                [("type", Val.vStr "transfer_completed"),
                 ("transfer_id", Val.vStr tid),
                 ("status", Val.vStr "completed")])
          | none => (st', [])
      | none => (st, [])

/-- `handle_websocket_message`: dispatch on `message.get("type")`.  Unknown
types are only logged. -/
def handle_websocket_message (st : ServerState) (cid : String) (msg : InMsg)
    (tid : String) : Except (PyErr × ServerState × List Out) (ServerState × List Out) :=
  if msg.type = "ping" then
    .ok (st, [(cid, [("type", Val.vStr "pong"),
                     ("timestamp", msg.timestamp.getD Val.vNull)])])
  else if msg.type = "file_transfer_start" then
    .ok (handle_file_transfer_start st cid msg tid)
  else if msg.type = "file_chunk" then
    handle_file_chunk st cid msg
  else if msg.type = "chunk_ack" then
    .ok (handle_chunk_ack st cid msg)
  else if msg.type = "transfer_complete" then
    .ok (handle_transfer_complete st cid msg)
  else
    .ok (st, [])

/-- One iteration of the `websocket_endpoint` read loop on an already-parsed
message: a handler exception is caught by the loop's `except Exception`
branch, which calls `manager.disconnect(client_id)` — the client gets no
error reply and its registration is gone. -/
def wsStep (st : ServerState) (cid : String) (msg : InMsg) (tid : String) :
    ServerState × List Out :=
  match handle_websocket_message st cid msg tid with
  | .ok r => r
  | .error (_, st', outs) => (disconnect st' cid, outs)

/-- The status of the transfer registered under `tid`, if any. -/
def statusOf (st : ServerState) (tid : String) : Option String :=
  (lookupA st.transfers tid).map Transfer.status

/-- The record mutation `complete_transfer` performs on a found transfer. -/
def completedT (t : Transfer) : Transfer :=
  { t with status := "completed", progress := 100 }

end MainPy

namespace UltimateMain

/-- The `ConnectionManager` of `sharezidi-v3/ultimate_main.py`: connection
map plus the `webrtc_connections` and `device_capabilities` side dicts (their
values are opaque to the handlers modelled here). -/
structure ConnState where
  active_connections : List String
  webrtc_connections : List (String × Val)
  device_capabilities : List (String × Val)
  deriving DecidableEq

/-- `ConnectionManager.disconnect` in `ultimate_main.py`: deletes the client's
entries from the three dicts; no transfer record anywhere is touched and
nothing is sent. -/
def disconnect (st : ConnState) (cid : String) : ConnState :=
  { active_connections := st.active_connections.filter (fun x => x ≠ cid),
    webrtc_connections := eraseA st.webrtc_connections cid,
    device_capabilities := eraseA st.device_capabilities cid }

/-- `ConnectionManager.send_to_client` of `ultimate_main.py` (the transport
send itself is assumed to succeed; a transport failure only changes the
returned boolean, which the modelled handlers ignore). -/
def send_to_client (st : ConnState) (cid : String) (m : List (String × Val)) :
    List Out :=
  if st.active_connections.contains cid then [(cid, m)] else []

/-- The fields of a `webrtc_answer` / `webrtc_ice_candidate` message that the
`ultimate_main.py` handlers read. -/
structure SigMsg where
  payload : Option Val
  target_client : Option String
  deriving DecidableEq

/-- `handle_webrtc_answer` in `ultimate_main.py`: forwards the answer whenever
the target is a registered connection; otherwise it silently does nothing
(note: unlike the offer handler there is no error reply).  No offer record is
consulted — `ultimate_main.py` keeps none. -/
def handle_webrtc_answer (st : ConnState) (cid : String) (msg : SigMsg) :
    ConnState × List Out :=
  if struthy msg.target_client &&
      st.active_connections.contains (msg.target_client.getD "") then
    (st, send_to_client st (msg.target_client.getD "")
      [("type", Val.vStr "webrtc_answer"), ("answer", msg.payload.getD Val.vNull),
       ("from_client", Val.vStr cid)])
  else
    (st, [])

/-- `handle_webrtc_ice_candidate` in `ultimate_main.py`: forwards the candidate
immediately when the target is registered, and otherwise drops it — the state
is left unchanged, so nothing is queued for a later flush. -/
def handle_webrtc_ice_candidate (st : ConnState) (cid : String) (msg : SigMsg) :
    ConnState × List Out :=
  if struthy msg.target_client &&
      st.active_connections.contains (msg.target_client.getD "") then
    (st, send_to_client st (msg.target_client.getD "")
      [("type", Val.vStr "webrtc_ice_candidate"),
       ("candidate", msg.payload.getD Val.vNull),
       ("from_client", Val.vStr cid)])
  else
    (st, [])

end UltimateMain

namespace WebRTCMgr

/-- One entry of a connection's `ice_candidates` list
(`webrtc_manager.WebRTCManager.handle_ice_candidate`); the wall-clock
`timestamp` is omitted. -/
structure IceEntry where
  candidate : Val
  from_client : String
  deriving DecidableEq

/-- One record of `WebRTCManager.active_connections`
(`initiate_connection`); `created_at` is omitted. -/
structure Connection where
  sender_id : String
  receiver_id : String
  file_info : FileInfo
  status : String
  ice_candidates : List IceEntry
  offer : Option Val
  answer : Option Val
  deriving DecidableEq

/-- `WebRTCManager.active_connections`. -/
abbrev MgrState := List (String × Connection)

/-- `WebRTCManager.initiate_connection` builds this fresh record. -/
def freshConnection (sender_id receiver_id : String) (fi : FileInfo) : Connection :=
  { sender_id := sender_id, receiver_id := receiver_id, file_info := fi,
    status := "initiating", ice_candidates := [], offer := none, answer := none }

/-- `WebRTCManager.handle_offer`: fails (returns `False`, no mutation) on an
unknown connection id or when the caller is not the recorded sender; otherwise
stores the offer and moves the status to `offer_received`. -/
def handle_offer (st : MgrState) (connection_id : String) (offer : Val)
    (client_id : String) : Bool × MgrState :=
  match lookupA st connection_id with
  | none => (false, st)
  | some c =>
      if c.sender_id ≠ client_id then (false, st)
      else
        (true, setA st connection_id
          { c with offer := some offer, status := "offer_received" })

/-- `WebRTCManager.handle_answer`: fails only on an unknown connection id or a
caller other than the recorded receiver.  Whether an offer is on record is
never checked. -/
def handle_answer (st : MgrState) (connection_id : String) (answer : Val)
    (client_id : String) : Bool × MgrState :=
  match lookupA st connection_id with
  | none => (false, st)
  | some c =>
      if c.receiver_id ≠ client_id then (false, st)
      else
        (true, setA st connection_id
          { c with answer := some answer, status := "answer_received" })

/-- `WebRTCManager.handle_ice_candidate`: appends the candidate to the
connection's `ice_candidates` list (the list is only ever appended to — no
code in the repository reads it back to flush candidates to a peer). -/
def handle_ice_candidate (st : MgrState) (connection_id : String)
    (candidate : Val) (client_id : String) : Bool × MgrState :=
  match lookupA st connection_id with
  | none => (false, st)
  | some c =>
      if client_id = c.sender_id || client_id = c.receiver_id then
        (true, setA st connection_id
          { c with ice_candidates :=
              c.ice_candidates ++ [{ candidate := candidate, from_client := client_id }] })
      else
        (false, st)

/-- One record of `P2PTransferManager.active_transfers` (`start_transfer`);
`started_at`, `transfer_speed` and `estimated_time` (never read by the
modelled handlers) are omitted.  `progress` is whatever value was last
assigned — the Python code stores the reported value without any conversion,
so the field is a `Val`, initially `0`. -/
structure P2PTransfer where
  transfer_id : String
  connection_id : String
  sender_id : String
  receiver_id : String
  file_info : FileInfo
  status : String
  progress : Val
  chunks_sent : Int
  chunks_received : Int
  total_chunks : Int
  deriving DecidableEq

/-- `P2PTransferManager.active_transfers`. -/
abbrev TransferMap := List (String × P2PTransfer)

/-- `P2PTransferManager.update_transfer_progress`: stores the reported
progress verbatim — there is no clamping and no range check — and overwrites
whichever chunk counters were passed. -/
def update_transfer_progress (st : TransferMap) (transfer_id : String) (p : Val)
    (chunks_sent chunks_received : Option Int) : TransferMap :=
  match lookupA st transfer_id with
  | none => st
  | some t =>
      let t1 := { t with progress := p }
      let t2 := match chunks_sent with
        | some n => { t1 with chunks_sent := n }
        | none => t1
      let t3 := match chunks_received with
        | some n => { t2 with chunks_received := n }
        | none => t2
      setA st transfer_id t3

/-- `P2PTransferManager.complete_transfer`. -/
def complete_transfer (st : TransferMap) (transfer_id : String) : TransferMap :=
  match lookupA st transfer_id with
  | none => st
  | some t =>
      setA st transfer_id { t with status := "completed", progress := Val.vNum 100 }

end WebRTCMgr

namespace AdvServer

/-- The shared mutable state touched by the `advanced_server.py` handlers:
the `ConnectionManager`'s connection map (only the key set matters), the
global `webrtc_manager`'s connection map and the global
`p2p_transfer_manager`'s transfer map. -/
structure SrvState where
  active_connections : List String
  connections : WebRTCMgr.MgrState
  transfers : WebRTCMgr.TransferMap
  deriving DecidableEq

/-- `ConnectionManager.send_to_client` of `advanced_server.py`. -/
def send_to_client (st : SrvState) (cid : String) (m : List (String × Val)) :
    List Out :=
  if st.active_connections.contains cid then [(cid, m)] else []

/-- Fields of a `webrtc_answer` client message read by
`advanced_server.handle_webrtc_answer`. -/
structure AnswerMsg where
  connection_id : Option String
  answer : Option Val
  deriving DecidableEq

/-- The `webrtc_answer_processed` receipt sent back to the caller. -/
def processedAnswerMsg (k : String) (success : Bool) : List (String × Val) :=
  [("type", Val.vStr "webrtc_answer_processed"), ("connection_id", Val.vStr k),
   ("success", Val.vBool success)]

/-- `advanced_server.handle_webrtc_answer`: validates the two fields, hands the
answer to `webrtc_manager.handle_answer`, forwards it to the connection's
sender on success, and always sends the caller a `webrtc_answer_processed`
receipt with the success flag. -/
def handle_webrtc_answer (st : SrvState) (cid : String) (msg : AnswerMsg) :
    SrvState × List Out :=
  if !(struthy msg.connection_id && otruthy msg.answer) then
    (st, [(cid, [("type", Val.vStr "error"),
                 ("message", Val.vStr "Connection ID and answer required")])])
  else
    match msg.connection_id, msg.answer with
    | some k, some a =>
        let res := WebRTCMgr.handle_answer st.connections k a cid
        let st' := { st with connections := res.2 }
        let fwd :=
          if res.1 then
            match lookupA st'.connections k with
            | some c =>
                send_to_client st' c.sender_id
                  [("type", Val.vStr "webrtc_answer"), ("connection_id", Val.vStr k),
                   ("answer", a), ("receiver_id", Val.vStr cid)]
            | none => []
          else []
        (st', fwd ++ [(cid, processedAnswerMsg k res.1)])
    | _, _ => (st, [])

/-- Fields of a `transfer_progress` client message read by
`advanced_server.handle_transfer_progress` (the `speed`/`eta` fields are read
into locals that are never used; the `bytes_transferred`/`network_quality`
stats dict is bookkeeping not touched by any claim and is omitted). -/
structure ProgressMsg where
  transfer_id : Option String
  progress : Option Val
  deriving DecidableEq

/-- `advanced_server.handle_transfer_progress`: for a known transfer, stores
the reported progress exactly as received via `update_transfer_progress`; it
never replies (in particular it never sends an `error`). -/
def handle_transfer_progress (st : SrvState) (cid : String) (msg : ProgressMsg) :
    SrvState × List Out :=
  match msg.transfer_id with
  | none => (st, [])
  | some tid =>
      if (lookupA st.transfers tid).isSome then
        let tm := WebRTCMgr.update_transfer_progress st.transfers tid
          (msg.progress.getD Val.vNull) none none
        ({ st with transfers := tm }, [])
      else (st, [])

end AdvServer

namespace MainPy

/-- A `ping` message carrying an optional timestamp. -/
def mkPing (ts : Option Val) : InMsg :=
  { type := "ping", timestamp := ts, file_info := none, receiver_id := none,
    transfer_id := none, chunk_data := none, chunk_index := none,
    total_chunks := none, received_progress := none }

/-- A `file_chunk` message with the four fields the handler reads. -/
def mkChunkMsg (tid : String) (cd : Val) (ci : Int) (tc : Option Int) : InMsg :=
  { type := "file_chunk", timestamp := none, file_info := none,
    receiver_id := none, transfer_id := some tid, chunk_data := some cd,
    chunk_index := some ci, total_chunks := tc, received_progress := none }

/-- A `chunk_ack` message. -/
def mkAckMsg (tid : String) (ci : Option Int) (rp : Option Val) : InMsg :=
  { type := "chunk_ack", timestamp := none, file_info := none,
    receiver_id := none, transfer_id := some tid, chunk_data := none,
    chunk_index := ci, total_chunks := none, received_progress := rp }

/-- A `transfer_complete` message. -/
def mkCompleteMsg (tid : String) : InMsg :=
  { type := "transfer_complete", timestamp := none, file_info := none,
    receiver_id := none, transfer_id := some tid, chunk_data := none,
    chunk_index := none, total_chunks := none, received_progress := none }

/-- A `file_transfer_start` message. -/
def mkStartMsg (r : Option String) (fi : Option FileInfo) : InMsg :=
  { type := "file_transfer_start", timestamp := none, file_info := fi,
    receiver_id := r, transfer_id := none, chunk_data := none,
    chunk_index := none, total_chunks := none, received_progress := none }

end MainPy

/-- A concrete file descriptor used by the example states. -/
def exFi : FileInfo := ⟨some "x.pdf", some 1000, some 4⟩

/-- A concrete non-terminal transfer from `alice` to `bob`. -/
def exT1 : MainPy.Transfer :=
  { id := "t1", file_info := exFi, sender_id := "alice", receiver_id := "bob",
    status := "pending", progress := 0, chunks_received := 0, total_chunks := 4 }

/-- Concrete `main.py` state: `alice` and `bob` connected, one non-terminal
transfer `t1` between them. -/
def exStAB : MainPy.ServerState :=
  { active_connections := ["alice", "bob"], transfers := [("t1", exT1)] }

/-- Concrete `main.py` state: only `alice` connected, no transfers. -/
def exStA : MainPy.ServerState := { active_connections := ["alice"], transfers := [] }

/-- Concrete `webrtc_manager` connection `alice → bob`, fresh from
`initiate_connection`: no offer, no answer on record. -/
def exConn : WebRTCMgr.Connection := WebRTCMgr.freshConnection "alice" "bob" exFi

/-- Concrete `p2p_transfer_manager` transfer `alice → bob`. -/
def exP2PT : WebRTCMgr.P2PTransfer :=
  { transfer_id := "t1", connection_id := "c1", sender_id := "alice",
    receiver_id := "bob", file_info := exFi, status := "pending",
    progress := Val.vNum 0, chunks_sent := 0, chunks_received := 0,
    total_chunks := 4 }

/-- Concrete `advanced_server.py` state: `alice` and `bob` connected, one
fresh WebRTC connection `c1` and one transfer `t1` between them. -/
def exAdv : AdvServer.SrvState :=
  { active_connections := ["alice", "bob"], connections := [("c1", exConn)],
    transfers := [("t1", exP2PT)] }

/-- Concrete `ultimate_main.py` connection state with only `alice`
registered. -/
def exStUltA : UltimateMain.ConnState :=
  { active_connections := ["alice"], webrtc_connections := [],
    device_capabilities := [] }

/-- Concrete `ultimate_main.py` connection state with `alice` and `bob`
registered. -/
def exStUltAB : UltimateMain.ConnState :=
  { active_connections := ["alice", "bob"], webrtc_connections := [],
    device_capabilities := [] }

/-- Concrete `main.py` state with a third client `mallory` registered besides
the transfer pair. -/
def exStABM : MainPy.ServerState :=
  { active_connections := ["alice", "bob", "mallory"], transfers := [("t1", exT1)] }

theorem lookupA_setA_self {α : Type} (m : List (String × α)) (k : String) (v : α) :
    lookupA (setA m k v) k = some v := by
  induction m with
  | nil => simp [setA, lookupA]
  | cons e rest ih =>
      by_cases h : e.1 = k <;> simp [setA, lookupA, h, ih]

theorem lookupA_setA_ne {α : Type} (m : List (String × α)) (k k' : String) (v : α)
    (h : k' ≠ k) : lookupA (setA m k v) k' = lookupA m k' := by
  induction m with
  | nil => simp [setA, lookupA, Ne.symm h]
  | cons e rest ih =>
      obtain ⟨k0, v0⟩ := e
      by_cases he : k0 = k
      · simp [setA, lookupA, he, Ne.symm h, h]
      · by_cases he' : k0 = k' <;> simp [setA, lookupA, he, he', ih, h]

theorem setA_self {α : Type} (m : List (String × α)) (k : String) (v : α)
    (h : lookupA m k = some v) : setA m k v = m := by
  induction m with
  | nil => simp [lookupA] at h
  | cons e rest ih =>
      obtain ⟨k0, v0⟩ := e
      by_cases he : k0 = k
      · simp [lookupA, he] at h
        simp [setA, he, h]
      · simp [lookupA, he] at h
        simp [setA, he, ih h]

theorem filter_idem {α : Type} (p : α → Bool) (l : List α) :
    (l.filter p).filter p = l.filter p := by
  induction l with
  | nil => rfl
  | cons a t ih =>
      by_cases h : p a <;> simp [List.filter, h, ih]

theorem contains_filter_ne_self (l : List String) (c : String) :
    (l.filter (fun x => x ≠ c)).contains c = false := by
  induction l with
  | nil => rfl
  | cons a t ih =>
      by_cases h : a = c
      · simp [List.filter, h, ih]
      · simp [List.filter, h, List.contains_cons, ih, beq_iff_eq, Ne.symm h]

/-- C1 counterexample:  The claim says that disconnecting an endpoint
transitions every non-terminal transfer it participates in to
cancelled/failed and notifies the surviving peer exactly once.  In `main.py`,
disconnecting `alice` — the sender of the non-terminal transfer `t1` — emits
no notification at all and leaves `t1`'s status unchanged (`pending`, not
`cancelled`/`failed`): `ConnectionManager.disconnect` only deletes the
connection entry. -/
theorem c1_disconnect_cancels_nothing_cex :
    (MainPy.disconnectEvent exStAB "alice").2 = [] ∧
    MainPy.statusOf (MainPy.disconnectEvent exStAB "alice").1 "t1" = some "pending" := by
  exact ⟨rfl, rfl⟩

/-- C1 (amended):  On endpoint disconnect, `main.py` and
`ultimate_main.py` only delete the endpoint's registry entries
(`active_connections`, and in `ultimate_main.py` also `webrtc_connections`
and `device_capabilities`): no Transfer is transitioned, no notification is
sent to the surviving peer, and a duplicate disconnect event for the same
endpoint is a no-op. -/
theorem c1_disconnect_removes_connection_only (st : MainPy.ServerState)
    (ust : UltimateMain.ConnState) (cid : String) :
    (MainPy.disconnectEvent st cid).2 = [] ∧
    (MainPy.disconnectEvent st cid).1.transfers = st.transfers ∧
    MainPy.disconnect (MainPy.disconnect st cid) cid = MainPy.disconnect st cid ∧
    UltimateMain.disconnect (UltimateMain.disconnect ust cid) cid
      = UltimateMain.disconnect ust cid := by
  refine ⟨rfl, rfl, ?_, ?_⟩
  · simp [MainPy.disconnect, filter_idem]
  · simp [UltimateMain.disconnect, eraseA, filter_idem]

/-- C9 counterexample:  The claim says the pong reply carries the
ping's timestamp *plus the server's own time*.  In `main.py` (and
`working_server.py`) the pong dict is
`{"type": "pong", "timestamp": message.get("timestamp")}` — there is no
server-time field: looking up `server_time` in the reply's field list yields
nothing. -/
theorem c9_pong_has_no_server_time_cex :
    (MainPy.wsStep exStAB "alice" (MainPy.mkPing (some (Val.vNum 12345))) "f").2
      = [("alice", [("type", Val.vStr "pong"), ("timestamp", Val.vNum 12345)])] ∧
    lookupA
      ((MainPy.wsStep exStAB "alice" (MainPy.mkPing (some (Val.vNum 12345))) "f").2.headD
        ("", [])).2 "server_time" = none := by
  exact ⟨rfl, rfl⟩

/-- C9 (amended):  For every ping message, `main.py` replies with exactly
one pong to the caller carrying the same timestamp value (and no server-time
field — `advanced_server.py` is the only variant that adds `server_time`),
and processing the ping changes no registry or transfer state. -/
theorem c9_ping_pong_same_timestamp_no_state_change (st : MainPy.ServerState)
    (cid tid : String) (ts : Option Val) :
    MainPy.wsStep st cid (MainPy.mkPing ts) tid
      = (st, [(cid, [("type", Val.vStr "pong"), ("timestamp", ts.getD Val.vNull)])]) := by
  rfl

theorem statusOf_update_progress (st : MainPy.ServerState) (tid k : String) (p : Rat) :
    MainPy.statusOf (MainPy.update_progress st tid p) k = MainPy.statusOf st k := by
  unfold MainPy.update_progress MainPy.statusOf
  cases hl : lookupA st.transfers tid with
  | none => rfl
  | some t =>
      by_cases hk : k = tid
      · subst hk; simp [lookupA_setA_self, hl]
      · simp [lookupA_setA_ne _ _ _ _ hk]

theorem handle_chunk_ack_state (st : MainPy.ServerState) (cid : String)
    (msg : MainPy.InMsg) : (MainPy.handle_chunk_ack st cid msg).1 = st := by
  unfold MainPy.handle_chunk_ack
  cases msg.transfer_id with
  | none => rfl
  | some tid =>
      cases hl : lookupA st.transfers tid <;> simp [hl]

theorem statusOf_file_chunk_step (st : MainPy.ServerState) (cid tid k : String)
    (msg : MainPy.InMsg) (h3 : msg.type = "file_chunk") :
    MainPy.statusOf (MainPy.wsStep st cid msg tid).1 k = MainPy.statusOf st k := by
  obtain ⟨ty, ts, fi, rid, tidf, cd, cif, tcf, rp⟩ := msg
  simp only at h3
  subst h3
  cases tidf with
  | none =>
      simp [MainPy.wsStep, MainPy.handle_websocket_message, MainPy.handle_file_chunk,
        struthy]
  | some tid0 =>
      cases cif with
      | none =>
          simp [MainPy.wsStep, MainPy.handle_websocket_message, MainPy.handle_file_chunk]
      | some ci =>
          by_cases h1 : tid0 = ""
          · simp [MainPy.wsStep, MainPy.handle_websocket_message,
              MainPy.handle_file_chunk, struthy, h1]
          · by_cases h2 : otruthy cd = true
            · cases tcf with
              | none =>
                  simp [MainPy.wsStep, MainPy.handle_websocket_message,
                    MainPy.handle_file_chunk, struthy, h1, h2, MainPy.disconnect,
                    MainPy.statusOf]
              | some tc =>
                  by_cases h0 : tc = 0
                  · simp [MainPy.wsStep, MainPy.handle_websocket_message,
                      MainPy.handle_file_chunk, struthy, h1, h2, h0, MainPy.disconnect,
                      MainPy.statusOf]
                  · cases hl : lookupA (MainPy.update_progress st tid0
                        ((((ci : Rat) + 1) / (tc : Rat)) * 100)).transfers tid0 <;>
                      simp [MainPy.wsStep, MainPy.handle_websocket_message,
                        MainPy.handle_file_chunk, struthy, h1, h2, h0, hl,
                        statusOf_update_progress]
            · have h2' : otruthy cd = false := by simpa using h2
              simp [MainPy.wsStep, MainPy.handle_websocket_message,
                MainPy.handle_file_chunk, h2']

theorem wsStep_statusOf_cases (st : MainPy.ServerState) (cid tid : String)
    (msg : MainPy.InMsg) (h : msg.type ≠ "transfer_complete") (k : String) :
    MainPy.statusOf (MainPy.wsStep st cid msg tid).1 k = MainPy.statusOf st k ∨
    MainPy.statusOf (MainPy.wsStep st cid msg tid).1 k = some "pending" := by
  by_cases h1 : msg.type = "ping"
  · left
    simp [MainPy.wsStep, MainPy.handle_websocket_message, h1]
  · by_cases h2 : msg.type = "file_transfer_start"
    · by_cases hr : struthy msg.receiver_id
      · by_cases hk : k = tid
        · subst hk
          right
          simp [MainPy.wsStep, MainPy.handle_websocket_message, h2,
            MainPy.handle_file_transfer_start, hr, MainPy.create_transfer,
            MainPy.statusOf, lookupA_setA_self]
        · left
          simp [MainPy.wsStep, MainPy.handle_websocket_message, h2,
            MainPy.handle_file_transfer_start, hr, MainPy.create_transfer,
            MainPy.statusOf, lookupA_setA_ne _ _ _ _ hk]
      · left
        simp [MainPy.wsStep, MainPy.handle_websocket_message, h2,
          MainPy.handle_file_transfer_start, hr]
    · by_cases h3 : msg.type = "file_chunk"
      · left
        exact statusOf_file_chunk_step st cid tid k msg h3
      · by_cases h4 : msg.type = "chunk_ack"
        · left
          simp [MainPy.wsStep, MainPy.handle_websocket_message, h4,
            handle_chunk_ack_state]
        · left
          simp [MainPy.wsStep, MainPy.handle_websocket_message, h1, h2, h3, h4, h]

/-- C5:  Processing any message other than an explicit `transfer_complete`
— in particular any `chunk_ack`, however many acknowledgements have
accumulated — never makes a transfer's status `completed`: in `main.py` a
`chunk_ack` leaves the whole server state untouched (the handler only
forwards the ack to the sender), and after any non-`transfer_complete`
message a transfer reads `completed` only if it already did before. -/
theorem c5_chunk_ack_never_completes (st : MainPy.ServerState) (cid tid : String)
    (msg : MainPy.InMsg) (h : msg.type ≠ "transfer_complete") :
    (msg.type = "chunk_ack" → (MainPy.wsStep st cid msg tid).1 = st) ∧
    (∀ k, MainPy.statusOf (MainPy.wsStep st cid msg tid).1 k = some "completed" →
      MainPy.statusOf st k = some "completed") := by
  constructor
  · intro h4
    simp [MainPy.wsStep, MainPy.handle_websocket_message, h4, handle_chunk_ack_state]
  · intro k hk
    rcases wsStep_statusOf_cases st cid tid msg h k with he | hp
    · rw [← he]; exact hk
    · rw [hk] at hp
      simp at hp

/-- C5 witness:  A concrete `chunk_ack` for transfer `t1` (whose
`total_chunks` is 4) leaves the state of `main.py` exactly as it was. -/
theorem c5_chunk_ack_never_completes_witness :
    (MainPy.wsStep exStAB "bob" (MainPy.mkAckMsg "t1" (some 3) none) "f").1 = exStAB :=
  (c5_chunk_ack_never_completes exStAB "bob" "f" (MainPy.mkAckMsg "t1" (some 3) none)
    (by decide)).1 rfl

/-- C10:  A `file_chunk` message with truthy `transfer_id`, truthy
`chunk_data` and a present `chunk_index`, but `total_chunks` equal to `0` or
absent, makes `handle_file_chunk` raise (`ZeroDivisionError` resp. a
`TypeError` from `(chunk_index + 1) / None`) while computing
`((chunk_index + 1) / total_chunks) * 100`; the exception is caught only by
`websocket_endpoint`'s `except Exception` branch, so one loop step ends with
the client deregistered (`manager.disconnect`) and no error reply sent. -/
theorem c10_file_chunk_bad_total_chunks_kills_connection (st : MainPy.ServerState)
    (cid tid fresh : String) (cd : Val) (ci : Int)
    (h1 : tid ≠ "") (h2 : cd.truthy = true) :
    MainPy.handle_websocket_message st cid (MainPy.mkChunkMsg tid cd ci (some 0)) fresh
      = .error (.zeroDivision, st, []) ∧
    MainPy.handle_websocket_message st cid (MainPy.mkChunkMsg tid cd ci none) fresh
      = .error (.typeErr, st, []) ∧
    MainPy.wsStep st cid (MainPy.mkChunkMsg tid cd ci (some 0)) fresh
      = (MainPy.disconnect st cid, []) ∧
    MainPy.wsStep st cid (MainPy.mkChunkMsg tid cd ci none) fresh
      = (MainPy.disconnect st cid, []) ∧
    (MainPy.disconnect st cid).active_connections.contains cid = false ∧
    (MainPy.disconnect st cid).transfers = st.transfers := by
  have hz : MainPy.handle_websocket_message st cid
      (MainPy.mkChunkMsg tid cd ci (some 0)) fresh = .error (.zeroDivision, st, []) := by
    simp [MainPy.handle_websocket_message, MainPy.handle_file_chunk, MainPy.mkChunkMsg,
      struthy, otruthy, h1, h2]
  have hn : MainPy.handle_websocket_message st cid
      (MainPy.mkChunkMsg tid cd ci none) fresh = .error (.typeErr, st, []) := by
    simp [MainPy.handle_websocket_message, MainPy.handle_file_chunk, MainPy.mkChunkMsg,
      struthy, otruthy, h1, h2]
  refine ⟨hz, hn, ?_, ?_, ?_, rfl⟩
  · simp [MainPy.wsStep, hz]
  · simp [MainPy.wsStep, hn]
  · exact contains_filter_ne_self st.active_connections cid

/-- C10 witness:  A concrete chunk message on `t1` with
`total_chunks = 0` from registered client `alice` tears down `alice`'s
connection with no reply. -/
theorem c10_file_chunk_bad_total_chunks_witness :
    MainPy.wsStep exStAB "alice" (MainPy.mkChunkMsg "t1" (Val.vBlob 1) 0 (some 0)) "f"
      = (MainPy.disconnect exStAB "alice", []) :=
  (c10_file_chunk_bad_total_chunks_kills_connection exStAB "alice" "t1" "f"
    (Val.vBlob 1) 0 (by decide) rfl).2.2.1

/-- C2 counterexample:  The claim says `file_transfer_start` naming an
unregistered receiver fails with `UnknownPeer` and creates no Transfer.  In
`main.py`, with only `alice` connected, a start request naming `bob` creates
the Transfer record (status `pending`) anyway, and the only reply is
`transfer_started` — no error of any kind; the `incoming_transfer`
notification to `bob` is silently dropped by `send_to_client`. -/
theorem c2_start_transfer_unknown_receiver_cex :
    lookupA (MainPy.handle_file_transfer_start exStA "alice"
        (MainPy.mkStartMsg (some "bob") (some exFi)) "T").1.transfers "T"
      = some { id := "T", file_info := exFi, sender_id := "alice",
               receiver_id := "bob", status := "pending", progress := 0,
               chunks_received := 0, total_chunks := 4 } ∧
    (MainPy.handle_file_transfer_start exStA "alice"
        (MainPy.mkStartMsg (some "bob") (some exFi)) "T").2
      = [("alice", [("type", Val.vStr "transfer_started"),
          ("transfer_id", Val.vStr "T"), ("status", Val.vStr "pending")])] :=
  ⟨rfl, rfl⟩

/-- C2 (amended):  `file_transfer_start` only validates that
`receiver_id` is present and non-empty; whether the receiver is registered is
never checked.  With an unregistered (non-empty) receiver the Transfer record
is still created in `pending`, no error is reported, the sender receives its
`transfer_started` confirmation, and the receiver notification is silently
dropped. -/
theorem c2_start_transfer_creates_record_regardless (st : MainPy.ServerState)
    (cid r tid : String) (msg : MainPy.InMsg)
    (hr : msg.receiver_id = some r) (hr' : r ≠ "")
    (hnr : st.active_connections.contains r = false) :
    (MainPy.handle_file_transfer_start st cid msg tid).1
      = MainPy.create_transfer st tid (msg.file_info.getD ⟨none, none, none⟩) cid r ∧
    (MainPy.handle_file_transfer_start st cid msg tid).2
      = [(cid, [("type", Val.vStr "transfer_started"),
          ("transfer_id", Val.vStr tid), ("status", Val.vStr "pending")])] := by
  have hnr' : r ∉ st.active_connections := by simpa using hnr
  constructor <;>
    simp [MainPy.handle_file_transfer_start, hr, struthy, hr',
      MainPy.send_to_client, MainPy.create_transfer, hnr']

/-- C2 witness:  The amended behaviour at the concrete unregistered
receiver `bob`. -/
theorem c2_start_transfer_creates_record_witness :
    (MainPy.handle_file_transfer_start exStA "alice"
        (MainPy.mkStartMsg (some "bob") (some exFi)) "T").1
      = MainPy.create_transfer exStA "T" exFi "alice" "bob" :=
  (c2_start_transfer_creates_record_regardless exStA "alice" "bob" "T"
    (MainPy.mkStartMsg (some "bob") (some exFi)) rfl (by decide) rfl).1

/-- C7 counterexample:  The claim says `transfer_complete` transitions
`active → completed` and notifies *both* sender and receiver.  In `main.py`,
completing `t1` — which is still `pending`, not `active` — succeeds anyway,
and the one and only notification goes to the sender `alice`; the registered
receiver `bob` gets nothing. -/
theorem c7_transfer_complete_sender_only_cex :
    MainPy.statusOf exStAB "t1" = some "pending" ∧
    (MainPy.handle_transfer_complete exStAB "alice" (MainPy.mkCompleteMsg "t1")).2
      = [("alice", [("type", Val.vStr "transfer_completed"),
          ("transfer_id", Val.vStr "t1"), ("status", Val.vStr "completed")])] ∧
    MainPy.statusOf (MainPy.handle_transfer_complete exStAB "alice"
        (MainPy.mkCompleteMsg "t1")).1 "t1" = some "completed" :=
  ⟨rfl, rfl, rfl⟩

/-- C7 (amended):  In `main.py`, `transfer_complete` on a known transfer
sets its status to `completed` and its progress to `100` from *any* current
state (`pending` included), and notifies only the sender (when registered);
a repeated `transfer_complete` leaves the transfer state unchanged but sends
the sender notification again — idempotent on state, not on notifications. -/
theorem c7_transfer_complete_state_idempotent (st : MainPy.ServerState)
    (cid cid2 tid : String) (t : MainPy.Transfer)
    (ht : lookupA st.transfers tid = some t) :
    (MainPy.handle_transfer_complete st cid (MainPy.mkCompleteMsg tid)).1
      = { st with transfers := setA st.transfers tid (MainPy.completedT t) } ∧
    (MainPy.handle_transfer_complete st cid (MainPy.mkCompleteMsg tid)).2
      = MainPy.send_to_client st t.sender_id
          [("type", Val.vStr "transfer_completed"), ("transfer_id", Val.vStr tid),
           ("status", Val.vStr "completed")] ∧
    (MainPy.handle_transfer_complete
        (MainPy.handle_transfer_complete st cid (MainPy.mkCompleteMsg tid)).1 cid2
        (MainPy.mkCompleteMsg tid)).1
      = (MainPy.handle_transfer_complete st cid (MainPy.mkCompleteMsg tid)).1 ∧
    (MainPy.handle_transfer_complete
        (MainPy.handle_transfer_complete st cid (MainPy.mkCompleteMsg tid)).1 cid2
        (MainPy.mkCompleteMsg tid)).2
      = MainPy.send_to_client st t.sender_id
          [("type", Val.vStr "transfer_completed"), ("transfer_id", Val.vStr tid),
           ("status", Val.vStr "completed")] := by
  have key : ∀ (s : MainPy.ServerState) (c : String) (u : MainPy.Transfer),
      lookupA s.transfers tid = some u →
      MainPy.handle_transfer_complete s c (MainPy.mkCompleteMsg tid)
        = ({ s with transfers := setA s.transfers tid (MainPy.completedT u) },
           MainPy.send_to_client s u.sender_id
             [("type", Val.vStr "transfer_completed"), ("transfer_id", Val.vStr tid),
              ("status", Val.vStr "completed")]) := by
    intro s c u hu
    simp [MainPy.handle_transfer_complete, MainPy.mkCompleteMsg, hu,
      MainPy.complete_transfer, MainPy.completedT, lookupA_setA_self,
      MainPy.send_to_client]
  have h1 := key st cid t ht
  have ht2 : lookupA (setA st.transfers tid (MainPy.completedT t)) tid
      = some (MainPy.completedT t) := lookupA_setA_self _ _ _
  have h2 := key { st with transfers := setA st.transfers tid (MainPy.completedT t) }
    cid2 (MainPy.completedT t) ht2
  have hcc : MainPy.completedT (MainPy.completedT t) = MainPy.completedT t := rfl
  have hset : setA (setA st.transfers tid (MainPy.completedT t)) tid
        (MainPy.completedT t)
      = setA st.transfers tid (MainPy.completedT t) := setA_self _ _ _ ht2
  refine ⟨?_, ?_, ?_, ?_⟩
  · rw [h1]
  · rw [h1]
  · simp only [h1, h2, hcc, hset]
  · simp only [h1, h2, hcc, hset]
    simp [MainPy.send_to_client, MainPy.completedT]

/-- C7 witness:  The amended behaviour at the concrete pending transfer
`t1`. -/
theorem c7_transfer_complete_state_idempotent_witness :
    (MainPy.handle_transfer_complete
        (MainPy.handle_transfer_complete exStAB "alice" (MainPy.mkCompleteMsg "t1")).1
        "alice" (MainPy.mkCompleteMsg "t1")).1
      = (MainPy.handle_transfer_complete exStAB "alice" (MainPy.mkCompleteMsg "t1")).1 :=
  (c7_transfer_complete_state_idempotent exStAB "alice" "alice" "t1" exT1 rfl).2.2.1

/-- C6 counterexample:  The claim says reported progress is clamped
into [0,100] (-5 stored as 0, 150 stored as 100).  In
`advanced_server.handle_transfer_progress` /
`P2PTransferManager.update_transfer_progress` the reported value is stored
verbatim: -5 is stored as -5 and 150 as 150. -/
theorem c6_progress_not_clamped_cex :
    (lookupA (AdvServer.handle_transfer_progress exAdv "alice"
        { transfer_id := some "t1", progress := some (Val.vNum (-5)) }).1.transfers
      "t1").map WebRTCMgr.P2PTransfer.progress = some (Val.vNum (-5)) ∧
    (lookupA (AdvServer.handle_transfer_progress exAdv "alice"
        { transfer_id := some "t1", progress := some (Val.vNum 150) }).1.transfers
      "t1").map WebRTCMgr.P2PTransfer.progress = some (Val.vNum 150) :=
  ⟨rfl, rfl⟩

/-- C6 (amended):  A reported progress value for a known transfer is
stored exactly as received — neither clamped nor rejected: the handler
replies nothing, so no out-of-range report produces an error. -/
theorem c6_progress_stored_verbatim_never_rejected (st : AdvServer.SrvState)
    (cid tid : String) (p : Val) (t : WebRTCMgr.P2PTransfer)
    (ht : lookupA st.transfers tid = some t) :
    (lookupA (AdvServer.handle_transfer_progress st cid
        { transfer_id := some tid, progress := some p }).1.transfers tid).map
      WebRTCMgr.P2PTransfer.progress = some p ∧
    (AdvServer.handle_transfer_progress st cid
        { transfer_id := some tid, progress := some p }).2 = [] := by
  constructor <;>
    simp [AdvServer.handle_transfer_progress, ht,
      WebRTCMgr.update_transfer_progress, lookupA_setA_self]

/-- C6 witness:  The out-of-range report 150 on the concrete transfer
`t1` is stored as 150 with no reply. -/
theorem c6_progress_stored_verbatim_witness :
    (lookupA (AdvServer.handle_transfer_progress exAdv "alice"
        { transfer_id := some "t1", progress := some (Val.vNum 150) }).1.transfers
      "t1").map WebRTCMgr.P2PTransfer.progress = some (Val.vNum 150) :=
  (c6_progress_stored_verbatim_never_rejected exAdv "alice" "t1" (Val.vNum 150)
    exP2PT rfl).1

/-- C3 counterexample:  The claim says an answer whose negotiation id
has no offer on record is rejected (`NoMatchingOffer`) and not forwarded.
On the concrete connection `c1` — freshly initiated, `offer = None` — the
receiver `bob`'s answer is accepted (`success = true`) and forwarded to
`alice`: `handle_answer` checks only that the connection record exists and
that the caller is its receiver, never that an offer was stored. -/
theorem c3_answer_without_offer_forwarded_cex :
    (lookupA exAdv.connections "c1").map WebRTCMgr.Connection.offer = some none ∧
    (AdvServer.handle_webrtc_answer exAdv "bob"
        { connection_id := some "c1", answer := some (Val.vBlob 7) }).2
      = [("alice", [("type", Val.vStr "webrtc_answer"),
          ("connection_id", Val.vStr "c1"), ("answer", Val.vBlob 7),
          ("receiver_id", Val.vStr "bob")]),
         ("bob", AdvServer.processedAnswerMsg "c1" true)] :=
  ⟨rfl, rfl⟩

/-- C3 (amended):  An answer for a `connection_id` with no connection
record fails (`success = false` receipt, nothing forwarded); for an existing
connection, success depends only on the caller being the recorded receiver —
whether an offer is on record is never checked — and an offer followed by an
answer on the same connection id succeeds. -/
theorem c3_answer_checks_connection_not_offer (st : AdvServer.SrvState)
    (k cid s : String) (a o : Val) (ha : a.truthy = true) (hk : k ≠ "") :
    (lookupA st.connections k = none →
      AdvServer.handle_webrtc_answer st cid
          { connection_id := some k, answer := some a }
        = (st, [(cid, AdvServer.processedAnswerMsg k false)])) ∧
    (∀ c, lookupA st.connections k = some c →
      (WebRTCMgr.handle_answer st.connections k a cid).1
        = decide (c.receiver_id = cid)) ∧
    (∀ c, lookupA st.connections k = some c → c.sender_id = s →
      c.receiver_id = cid →
      (WebRTCMgr.handle_answer
          (WebRTCMgr.handle_offer st.connections k o s).2 k a cid).1 = true) := by
  refine ⟨?_, ?_, ?_⟩
  · intro hn
    simp [AdvServer.handle_webrtc_answer, struthy, otruthy, hk, ha,
      WebRTCMgr.handle_answer, hn]
  · intro c hc
    by_cases hrc : c.receiver_id = cid <;>
      simp [WebRTCMgr.handle_answer, hc, hrc]
  · intro c hc hs hrc
    simp [WebRTCMgr.handle_offer, hc, hs, WebRTCMgr.handle_answer,
      lookupA_setA_self, hrc]

/-- C3 witness:  An answer for the unknown connection id `zz` gets a
`success = false` receipt and is not forwarded. -/
theorem c3_answer_checks_connection_witness :
    AdvServer.handle_webrtc_answer exAdv "bob"
        { connection_id := some "zz", answer := some (Val.vBlob 7) }
      = (exAdv, [("bob", AdvServer.processedAnswerMsg "zz" false)]) :=
  (c3_answer_checks_connection_not_offer exAdv "zz" "bob" "alice" (Val.vBlob 7)
    (Val.vBlob 6) rfl (by decide)).1 rfl

/-- C4 counterexample:  The claim says ICE candidates sent before the
matching answer are delivered to the target exactly once, after the answer
completes, for n ∈ {0,1,5} queued candidates.  In
`ultimate_main.handle_webrtc_ice_candidate`, a single candidate (n = 1) from
`alice` for the not-yet-registered target `bob` produces no output and
leaves the state bit-for-bit unchanged — the candidate is dropped without a
trace, so no later step (the answer included) can ever deliver it. -/
theorem c4_early_ice_candidate_dropped_cex :
    UltimateMain.handle_webrtc_ice_candidate exStUltA "alice"
        { payload := some (Val.vBlob 3), target_client := some "bob" }
      = (exStUltA, []) := rfl

/-- C4 (amended):  In `ultimate_main.py` an ICE candidate is forwarded to
the target immediately on receipt when the target is registered — even
before any answer (the handler consults no negotiation state) — and is
silently dropped, with the relay state unchanged and nothing queued, when
the target is not registered. -/
theorem c4_ice_forward_immediately_or_drop (st : UltimateMain.ConnState)
    (cid t : String) (cand : Option Val) (ht : t ≠ "") :
    (st.active_connections.contains t = true →
      UltimateMain.handle_webrtc_ice_candidate st cid
          { payload := cand, target_client := some t }
        = (st, [(t, [("type", Val.vStr "webrtc_ice_candidate"),
            ("candidate", cand.getD Val.vNull), ("from_client", Val.vStr cid)])])) ∧
    (st.active_connections.contains t = false →
      UltimateMain.handle_webrtc_ice_candidate st cid
          { payload := cand, target_client := some t }
        = (st, [])) := by
  constructor
  · intro hc
    have hc' : t ∈ st.active_connections := by simpa using hc
    simp [UltimateMain.handle_webrtc_ice_candidate, UltimateMain.send_to_client,
      struthy, ht, hc']
  · intro hc
    have hc' : t ∉ st.active_connections := by simpa using hc
    simp [UltimateMain.handle_webrtc_ice_candidate, UltimateMain.send_to_client,
      struthy, ht, hc']

/-- C4 witness:  With `bob` registered, `alice`'s candidate is
forwarded to `bob` immediately (no answer has ever been processed in this
state), and with `bob` absent it is dropped. -/
theorem c4_ice_forward_immediately_witness :
    UltimateMain.handle_webrtc_ice_candidate exStUltAB "alice"
        { payload := some (Val.vBlob 3), target_client := some "bob" }
      = (exStUltAB, [("bob", [("type", Val.vStr "webrtc_ice_candidate"),
          ("candidate", Val.vBlob 3), ("from_client", Val.vStr "alice")])]) :=
  (c4_ice_forward_immediately_or_drop exStUltAB "alice" "bob"
    (some (Val.vBlob 3)) (by decide)).1 rfl

/-- C8 counterexample:  The claim says any message whose claimed sender
does not match the session identity is rejected and never applied or
forwarded.  In `main.py`, the connected client `mallory` — neither sender nor
receiver of `t1` — submits a `file_chunk` for `t1`: the handler applies it to
the transfer state (progress becomes 25) and forwards the chunk to `bob`;
no check compares the submitting session to the transfer's `sender_id`. -/
theorem c8_chunk_from_non_sender_applied_cex :
    MainPy.wsStep exStABM "mallory"
        (MainPy.mkChunkMsg "t1" (Val.vBlob 9) 0 (some 4)) "f"
      = ({ exStABM with transfers := [("t1", { exT1 with progress := 25 })] },
         [("mallory", MainPy.progressUpdateMsg "t1" 25 0),
          ("bob", MainPy.chunkFwdMsg "t1" (Val.vBlob 9) 0 4)]) := by
  have h25 : ((((0 : Int) : Rat) + 1) / ((4 : Int) : Rat)) * 100 = 25 := by norm_num
  have h25i : ((4 : Rat))⁻¹ * 100 = 25 := by norm_num
  simp [MainPy.wsStep, MainPy.handle_websocket_message, MainPy.handle_file_chunk,
    MainPy.mkChunkMsg, struthy, otruthy, Val.truthy, MainPy.update_progress,
    MainPy.send_to_client, exStABM, exT1, lookupA, setA, h25, h25i]

/-- C8 (amended):  Identity is enforced only inside `webrtc_manager`: an
offer whose caller is not the connection's recorded sender is refused with no
state change.  `main.py`'s chunk path has no such check: for *any* submitting
client — the hypotheses place no constraint relating `caller` to the
transfer's `sender_id` — a valid chunk on a known transfer updates the
transfer's progress and is forwarded to the recorded receiver. -/
theorem c8_identity_enforced_only_in_webrtc_manager (conns : WebRTCMgr.MgrState)
    (k cid : String) (o : Val) (c : WebRTCMgr.Connection)
    (st : MainPy.ServerState) (caller tid : String) (cd : Val) (ci tc : Int)
    (t : MainPy.Transfer)
    (hc : lookupA conns k = some c) (hs : c.sender_id ≠ cid)
    (ht : lookupA st.transfers tid = some t) (htid : tid ≠ "")
    (hcd : cd.truthy = true) (htc : ¬tc = 0) :
    WebRTCMgr.handle_offer conns k o cid = (false, conns) ∧
    MainPy.handle_file_chunk st caller (MainPy.mkChunkMsg tid cd ci (some tc))
      = .ok (MainPy.update_progress st tid ((((ci : Rat) + 1) / (tc : Rat)) * 100),
          (caller, MainPy.progressUpdateMsg tid
            ((((ci : Rat) + 1) / (tc : Rat)) * 100) ci) ::
          MainPy.send_to_client
            (MainPy.update_progress st tid ((((ci : Rat) + 1) / (tc : Rat)) * 100))
            t.receiver_id (MainPy.chunkFwdMsg tid cd ci tc)) := by
  constructor
  · simp [WebRTCMgr.handle_offer, hc, hs]
  · have hl : lookupA (MainPy.update_progress st tid
        ((((ci : Rat) + 1) / (tc : Rat)) * 100)).transfers tid
        = some { t with progress := (((ci : Rat) + 1) / (tc : Rat)) * 100 } := by
      simp [MainPy.update_progress, ht, lookupA_setA_self]
    simp [MainPy.handle_file_chunk, MainPy.mkChunkMsg, struthy, otruthy, htid,
      hcd, htc, hl]

/-- C8 witness:  The un-checked chunk path at the concrete non-sender
`mallory`. -/
theorem c8_identity_witness :
    MainPy.handle_file_chunk exStABM "mallory"
        (MainPy.mkChunkMsg "t1" (Val.vBlob 9) 0 (some 4))
      = .ok (MainPy.update_progress exStABM "t1" ((((0 : Int) : Rat) + 1) / ((4 : Int) : Rat) * 100),
          ("mallory", MainPy.progressUpdateMsg "t1"
            ((((0 : Int) : Rat) + 1) / ((4 : Int) : Rat) * 100) 0) ::
          MainPy.send_to_client
            (MainPy.update_progress exStABM "t1" ((((0 : Int) : Rat) + 1) / ((4 : Int) : Rat) * 100))
            "bob" (MainPy.chunkFwdMsg "t1" (Val.vBlob 9) 0 4)) :=
  (c8_identity_enforced_only_in_webrtc_manager [("c1", exConn)] "c1" "mallory"
    (Val.vBlob 5) exConn exStABM "mallory" "t1" (Val.vBlob 9) 0 4 exT1
    rfl (by decide) rfl (by decide) rfl (by decide)).2
